import Mathlib

/-!
# Huawei Cloud DNS-01 challenger (`pkg/core/certifier/challengers/dns01/huaweicloud`)

A shallow embedding of `huaweicloud.go`: the `wrapperProvider` around lego's
Huawei Cloud DNS provider (`Present`, `CleanUp`, `Timeout`) and the factory
`NewChallenger`.

Modelling conventions.

* A Go `string` is a finite sequence of bytes (`GoString`).
* Go's `int` is taken at its 64-bit width; `int32`, `int64` and
  `time.Duration` values are integers kept in range by an explicit
  two's-complement wrap (`wrapInt`).
* A Go `error` is `Option (GoError ε)`; `none` is `nil`.
* The lego packages `challenge` and `providers/dns/huaweicloud` are external
  collaborators.  They are parameters of the model: a backend is any value of
  `Provider σ ε`, the backend package is any value of `Hwc σ ε ρ`, and `σ` is
  the state of everything outside this package (DNS service, environment).
* Every call into these collaborators (a backend method, a function of the
  backend package) is recorded in the `trace` of the `World`, so that
  statements about which calls are made, with which arguments and how often,
  are statements about the embedded code.  The pure standard-library calls
  (`strings.TrimSuffix`, `errors.New`) are embedded as functions.
-/

namespace Huaweicloud

/-! ## Go values -/

/-- Go `string`: an immutable sequence of bytes. -/
abbrev GoString := List UInt8

/-- The Go string literal with the given text (its UTF-8 bytes). -/
def str (s : String) : GoString := s.toList.flatMap String.utf8EncodeChar

/-- Two's-complement wrap of an integer to a signed integer of `bits` bits,
as performed by Go's integer conversions and arithmetic. -/
def wrapInt (bits : Nat) (x : Int) : Int :=
  (x + 2 ^ (bits - 1)) % 2 ^ bits - 2 ^ (bits - 1)

/-- Go conversion `int32(x)`. -/
def int32 (x : Int) : Int := wrapInt 32 x

/-- Go conversion `int64(x)`. -/
def int64 (x : Int) : Int := wrapInt 64 x

/-- The value `x` is representable in Go's `int` (64-bit). -/
def IsInt (x : Int) : Prop := -2 ^ 63 ≤ x ∧ x < 2 ^ 63

instance (x : Int) : Decidable (IsInt x) := by
  unfold IsInt; infer_instance

/-- Go `time.Duration`: an `int64` count of nanoseconds. -/
abbrev time.Duration := Int

/-- Go conversion `time.Duration(x)` of an `int`. -/
def time.toDuration (x : Int) : time.Duration := int64 x

/-- Go constant `time.Second`. -/
def time.Second : time.Duration := 1000000000

/-- Go `a * b` on `time.Duration` operands: `int64` multiplication. -/
def time.Duration.mul (a b : time.Duration) : time.Duration := int64 (a * b)

/-- Go `strings.HasSuffix`:
`len(s) >= len(suffix) && s[len(s)-len(suffix):] == suffix`. -/
def strings.HasSuffix (s suffix : GoString) : Bool :=
  s.length ≥ suffix.length && s.drop (s.length - suffix.length) == suffix

/-- Go `strings.TrimSuffix`:
`if HasSuffix(s, suffix) { return s[:len(s)-len(suffix)] }; return s`. -/
def strings.TrimSuffix (s suffix : GoString) : GoString :=
  if strings.HasSuffix s suffix then s.take (s.length - suffix.length) else s

/-- Go `error` values: those made by `errors.New`, and values of any other
dynamic type `ε` (the error types of the backend). -/
inductive GoError (ε : Type) where
  | errorString (text : GoString)
  | other (e : ε)
  deriving DecidableEq

/-- Go `errors.New(text)`. -/
def errors.New {ε : Type} (text : GoString) : GoError ε := GoError.errorString text

/-! ## External collaborators -/

/-- The fields of lego's `huaweicloud.Config` that `NewChallenger` assigns;
`rest` stands for the fields it leaves alone. -/
structure hwc.Config (ρ : Type) where
  AccessKeyID : GoString
  SecretAccessKey : GoString
  Region : GoString
  PropagationTimeout : time.Duration
  TTL : Int
  rest : ρ
  deriving DecidableEq

/-- A value of the interface `challenge.Provider`, over outside state `σ`.
`Timeout` is `some` exactly when the dynamic type also implements
`challenge.ProviderTimeout`. -/
structure Provider (σ ε : Type) where
  Present : GoString → GoString → GoString → σ → Option (GoError ε) × σ
  CleanUp : GoString → GoString → GoString → σ → Option (GoError ε) × σ
  Timeout : Option (σ → (time.Duration × time.Duration) × σ)

/-- The two functions of lego's `providers/dns/huaweicloud` that are used. -/
structure Hwc (σ ε ρ : Type) where
  NewDefaultConfig : σ → hwc.Config ρ × σ
  NewDNSProviderConfig : hwc.Config ρ → σ → Except (GoError ε) (Provider σ ε) × σ

/-- A call into the lego collaborators. -/
inductive Call (ρ : Type) where
  | NewDefaultConfig
  | NewDNSProviderConfig (config : hwc.Config ρ)
  | Present (domain token keyAuth : GoString)
  | CleanUp (domain token keyAuth : GoString)
  | Timeout
  deriving DecidableEq

/-- The outside state together with the calls made so far, oldest first. -/
structure World (σ ρ : Type) where
  state : σ
  trace : List (Call ρ)
  deriving DecidableEq

section
variable {σ ε ρ : Type}

/-- The method call `p.Present(domain, token, keyAuth)`. -/
def Provider.callPresent (p : Provider σ ε) (domain token keyAuth : GoString)
    (world : World σ ρ) : Option (GoError ε) × World σ ρ :=
  let r := p.Present domain token keyAuth world.state
  (r.1, { state := r.2, trace := world.trace ++ [Call.Present domain token keyAuth] })

/-- The method call `p.CleanUp(domain, token, keyAuth)`. -/
def Provider.callCleanUp (p : Provider σ ε) (domain token keyAuth : GoString)
    (world : World σ ρ) : Option (GoError ε) × World σ ρ :=
  let r := p.CleanUp domain token keyAuth world.state
  (r.1, { state := r.2, trace := world.trace ++ [Call.CleanUp domain token keyAuth] })

/-- The method call `timeoutProvider.Timeout()` on a backend method `f`. -/
def Provider.callTimeout (f : σ → (time.Duration × time.Duration) × σ)
    (world : World σ ρ) : (time.Duration × time.Duration) × World σ ρ :=
  let r := f world.state
  (r.1, { state := r.2, trace := world.trace ++ [Call.Timeout] })

/-- The call `hwc.NewDefaultConfig()`. -/
def Hwc.callNewDefaultConfig (pkg : Hwc σ ε ρ) (world : World σ ρ) :
    hwc.Config ρ × World σ ρ :=
  let r := pkg.NewDefaultConfig world.state
  (r.1, { state := r.2, trace := world.trace ++ [Call.NewDefaultConfig] })

/-- The call `hwc.NewDNSProviderConfig(providerConfig)`. -/
def Hwc.callNewDNSProviderConfig (pkg : Hwc σ ε ρ) (providerConfig : hwc.Config ρ)
    (world : World σ ρ) : Except (GoError ε) (Provider σ ε) × World σ ρ :=
  let r := pkg.NewDNSProviderConfig providerConfig world.state
  (r.1, { state := r.2, trace := world.trace ++ [Call.NewDNSProviderConfig providerConfig] })

/-! ## The package -/

/-- Go `type ChallengerConfig struct`. -/
structure ChallengerConfig where
  AccessKeyId : GoString
  SecretAccessKey : GoString
  Region : GoString
  DnsPropagationTimeout : Int
  DnsTTL : Int
  deriving DecidableEq

/-- The two `int` fields of the config hold values of Go's `int`. -/
def ChallengerConfig.WellFormed (config : ChallengerConfig) : Prop :=
  IsInt config.DnsPropagationTimeout ∧ IsInt config.DnsTTL

instance (config : ChallengerConfig) : Decidable config.WellFormed := by
  unfold ChallengerConfig.WellFormed; infer_instance

/-- Go `type wrapperProvider struct { provider challenge.Provider }`. -/
structure wrapperProvider (σ ε : Type) where
  provider : Provider σ ε

/-- Go `func (w *wrapperProvider) Present(domain, token, keyAuth string) error`. -/
def wrapperProvider.Present (w : wrapperProvider σ ε) (domain token keyAuth : GoString)
    (world : World σ ρ) : Option (GoError ε) × World σ ρ :=
  let normalizedDomain := strings.TrimSuffix domain (str ".")
  w.provider.callPresent normalizedDomain token keyAuth world

/-- Go `func (w *wrapperProvider) CleanUp(domain, token, keyAuth string) error`. -/
def wrapperProvider.CleanUp (w : wrapperProvider σ ε) (domain token keyAuth : GoString)
    (world : World σ ρ) : Option (GoError ε) × World σ ρ :=
  let normalizedDomain := strings.TrimSuffix domain (str ".")
  w.provider.callCleanUp normalizedDomain token keyAuth world

/-- Go `func (w *wrapperProvider) Timeout() (timeout, interval time.Duration)`. -/
def wrapperProvider.Timeout (w : wrapperProvider σ ε) (world : World σ ρ) :
    (time.Duration × time.Duration) × World σ ρ :=
  match w.provider.Timeout with
  | some timeoutProvider => Provider.callTimeout timeoutProvider world
  | none => ((0, 0), world)

/-- Go `func NewChallenger(config *ChallengerConfig) (certifier.ACMEChallenger, error)`.
The package `hwc` is the parameter `pkg`; the `nil` pointer is `none`; the
result pair is (challenger, error). -/
def NewChallenger (pkg : Hwc σ ε ρ) (config : Option ChallengerConfig) (world : World σ ρ) :
    (Option (wrapperProvider σ ε) × Option (GoError ε)) × World σ ρ :=
  match config with
  | none =>
    ((none, some (errors.New (str "the configuration of the acme challenge provider is nil"))),
      world)
  | some config =>
    let region := config.Region
    let region := if region = str "" then str "cn-north-1" else region
    let (providerConfig, world) := pkg.callNewDefaultConfig world
    let providerConfig := { providerConfig with AccessKeyID := config.AccessKeyId }
    let providerConfig := { providerConfig with SecretAccessKey := config.SecretAccessKey }
    let providerConfig := { providerConfig with Region := region }
    let providerConfig :=
      if config.DnsPropagationTimeout ≠ 0 then
        { providerConfig with
          PropagationTimeout :=
            time.Duration.mul (time.toDuration config.DnsPropagationTimeout) time.Second }
      else providerConfig
    let providerConfig :=
      if config.DnsTTL ≠ 0 then { providerConfig with TTL := int32 config.DnsTTL }
      else providerConfig
    let (provider, world) := pkg.callNewDNSProviderConfig providerConfig world
    match provider with
    | Except.error err => ((none, some err), world)
    | Except.ok provider => ((some { provider := provider }, none), world)

end

/-! ## Wording of the specification -/

/-- Spec wording (4.2, "removing a single trailing separator character if
present"): the domain with one trailing "." removed if it has one. -/
def Spec.oneTrailingDotRemoved (domain : GoString) : GoString :=
  if str "." <:+ domain then domain.dropLast else domain

/-! ## Stub backend for concrete inputs

The outside state of the stub is the list of domains that currently hold a
challenge record. -/

/-- A stub backend with the timeout capability: `Present` records the domain,
`CleanUp` removes it and reports an error when there is nothing to remove. -/
def stubProvider : Provider (List GoString) Empty where
  Present := fun domain _ _ records => (none, domain :: records)
  CleanUp := fun domain _ _ records =>
    if domain ∈ records then (none, records.erase domain)
    else (some (errors.New (str "record not found")), records)
  Timeout := some (fun records => ((120000000000, 2000000000), records))

/-- The same stub backend without the timeout capability. -/
def stubProviderNoTimeout : Provider (List GoString) Empty :=
  { stubProvider with Timeout := none }

/-- A stub of the backend package: lego's defaults (TTL 300, propagation
timeout 60 s), and a constructor that rejects missing credentials or region. -/
def stubHwc : Hwc (List GoString) Empty Unit where
  NewDefaultConfig := fun records =>
    ({ AccessKeyID := [], SecretAccessKey := [], Region := [],
       PropagationTimeout := 60000000000, TTL := 300, rest := () }, records)
  NewDNSProviderConfig := fun config records =>
    if config.AccessKeyID = [] ∨ config.SecretAccessKey = [] ∨ config.Region = [] then
      (Except.error (errors.New (str "huaweicloud: credentials missing")), records)
    else (Except.ok stubProvider, records)

/-- The world before any call: no records, empty trace. -/
def emptyWorld : World (List GoString) Unit := { state := [], trace := [] }

/-- The config of the specification's end-to-end scenario:
`{accessKeyId:"AK", secretAccessKey:"SK", region:""}`. -/
def scenarioConfig : ChallengerConfig :=
  { AccessKeyId := str "AK", SecretAccessKey := str "SK", Region := str "",
    DnsPropagationTimeout := 0, DnsTTL := 0 }

/-- A config with every optional field set: region "cn-east-3", propagation
timeout 120 s, TTL 600. -/
def fullConfig : ChallengerConfig :=
  { AccessKeyId := str "AK", SecretAccessKey := str "SK", Region := str "cn-east-3",
    DnsPropagationTimeout := 120, DnsTTL := 600 }

/-- A config whose region is one blank. -/
def blankRegionConfig : ChallengerConfig :=
  { AccessKeyId := str "AK", SecretAccessKey := str "SK", Region := str " ",
    DnsPropagationTimeout := 0, DnsTTL := 0 }

/-- A config without credentials. -/
def noCredentialsConfig : ChallengerConfig :=
  { AccessKeyId := str "", SecretAccessKey := str "", Region := str "",
    DnsPropagationTimeout := 0, DnsTTL := 0 }

/-- A config whose propagation timeout is 9223372037 s, one second more than
an `int64` count of nanoseconds can hold. -/
def longTimeoutConfig : ChallengerConfig :=
  { AccessKeyId := str "AK", SecretAccessKey := str "SK", Region := str "",
    DnsPropagationTimeout := 9223372037, DnsTTL := 0 }

/-- A config whose TTL is 4294967296, that is 2^32. -/
def largeTTLConfig : ChallengerConfig :=
  { AccessKeyId := str "AK", SecretAccessKey := str "SK", Region := str "",
    DnsPropagationTimeout := 0, DnsTTL := 4294967296 }

/-- A stub of the backend package that keeps what its constructor is given:
the outside state is the list of configurations received, newest first.  It
has lego's defaults (TTL 300, propagation timeout 60 s) and always succeeds. -/
def recordingHwc : Hwc (List (hwc.Config Unit)) Empty Unit where
  NewDefaultConfig := fun received =>
    ({ AccessKeyID := [], SecretAccessKey := [], Region := [],
       PropagationTimeout := 60000000000, TTL := 300, rest := () }, received)
  NewDNSProviderConfig := fun config received =>
    (Except.ok
      { Present := fun _ _ _ state => (none, state)
        CleanUp := fun _ _ _ state => (none, state)
        Timeout := none },
      config :: received)

/-- The world of the recording stub before any call. -/
def recordingWorld : World (List (hwc.Config Unit)) Unit := { state := [], trace := [] }

/-! ## Domain normalization -/

theorem str_dot : str "." = [46] := by decide

theorem TrimSuffix_dot_nil : strings.TrimSuffix [] (str ".") = [] := by decide

theorem TrimSuffix_dot_concat (l : GoString) (a : UInt8) :
    strings.TrimSuffix (l ++ [a]) (str ".") = if a = 46 then l else l ++ [a] := by
  rw [str_dot]
  unfold strings.TrimSuffix strings.HasSuffix
  by_cases h : a = 46 <;> simp [h]

theorem not_suffix_of_last_ne (l s : GoString) (a b : UInt8) (h : a ≠ b) :
    ¬ (s ++ [b] <:+ l ++ [a]) := by
  rintro ⟨t, ht⟩
  have h1 : (t ++ s) ++ [b] = l ++ [a] := by simpa using ht
  have h2 := congrArg List.getLast? h1
  simp at h2
  exact h h2.symm

theorem TrimSuffix_dot_eq_spec (domain : GoString) :
    strings.TrimSuffix domain (str ".") = Spec.oneTrailingDotRemoved domain := by
  rcases List.eq_nil_or_concat domain with rfl | ⟨l, a, rfl⟩
  · decide
  · rw [List.concat_eq_append, TrimSuffix_dot_concat]
    unfold Spec.oneTrailingDotRemoved
    rw [str_dot]
    by_cases h : a = 46
    · subst h
      rw [if_pos rfl, if_pos (List.suffix_append l [46]), List.dropLast_concat]
    · have h2 : ¬ ([46] <:+ l ++ [a]) := not_suffix_of_last_ne l [] a 46 h
      rw [if_neg h, if_neg h2]

theorem TrimSuffix_dot_eq_self_iff (domain : GoString) :
    strings.TrimSuffix domain (str ".") = domain ↔ ¬ (str "." <:+ domain) := by
  rcases List.eq_nil_or_concat domain with rfl | ⟨l, a, rfl⟩
  · rw [TrimSuffix_dot_nil, str_dot]
    simp
  · rw [List.concat_eq_append, TrimSuffix_dot_concat, str_dot]
    by_cases h : a = 46
    · subst h
      simp
    · have h2 : ¬ ([46] <:+ l ++ [a]) := not_suffix_of_last_ne l [] a 46 h
      simp [h, h2]

theorem suffix_two_dots_concat_iff (l : GoString) :
    str ".." <:+ l ++ [46] ↔ str "." <:+ l := by
  have h2 : str ".." = [46, 46] := by decide
  rw [h2, str_dot]
  constructor
  · rintro ⟨t, ht⟩
    refine ⟨t, ?_⟩
    have h : (t ++ [46]) ++ [46] = l ++ [46] := by simpa using ht
    exact List.append_cancel_right h
  · rintro ⟨t, ht⟩
    exact ⟨t, by rw [← ht]; simp⟩

/-! ## Present and CleanUp -/

section
variable {σ ε ρ : Type}

/-- Claim C1: for every backend, domain, token, keyAuth and world,
`wrapperProvider.Present` makes exactly one call across the boundary, the
backend's `Present` with (the domain with one trailing "." removed if present,
the token unchanged, the keyAuth unchanged); its result and the outside state
it leaves are exactly those of that one backend call: `nil` when the backend
returns `nil`, the backend's own error value when it returns an error. -/
theorem Present_delegates_once (p : Provider σ ε) (domain token keyAuth : GoString)
    (world : World σ ρ) :
    wrapperProvider.Present { provider := p } domain token keyAuth world =
        ((p.Present (Spec.oneTrailingDotRemoved domain) token keyAuth world.state).1,
          { state :=
              (p.Present (Spec.oneTrailingDotRemoved domain) token keyAuth world.state).2,
            trace :=
              world.trace ++ [Call.Present (Spec.oneTrailingDotRemoved domain) token keyAuth] })
      ∧ ((p.Present (Spec.oneTrailingDotRemoved domain) token keyAuth world.state).1 = none →
          (wrapperProvider.Present { provider := p } domain token keyAuth world).1 = none)
      ∧ (∀ err : GoError ε,
          (p.Present (Spec.oneTrailingDotRemoved domain) token keyAuth world.state).1 = some err →
          (wrapperProvider.Present { provider := p } domain token keyAuth world).1 = some err) := by
  have h : wrapperProvider.Present { provider := p } domain token keyAuth world =
        ((p.Present (Spec.oneTrailingDotRemoved domain) token keyAuth world.state).1,
          { state :=
              (p.Present (Spec.oneTrailingDotRemoved domain) token keyAuth world.state).2,
            trace :=
              world.trace ++
                [Call.Present (Spec.oneTrailingDotRemoved domain) token keyAuth] }) := by
    unfold wrapperProvider.Present Provider.callPresent
    simp only [TrimSuffix_dot_eq_spec]
  refine ⟨h, ?_, ?_⟩
  · intro hn
    rw [h]
    exact hn
  · intro err he
    rw [h]
    exact he

/-- Claim C2: for every backend, domain, token, keyAuth and world,
`wrapperProvider.CleanUp` makes exactly one call, the backend's `CleanUp`, with
the very triple that `wrapperProvider.Present` hands to the backend's `Present`
for the same arguments; it returns the result of that call as it is, so it
returns an error if and only if the backend's `CleanUp` did, and then that same
error value. -/
theorem CleanUp_same_triple_passes_result (p : Provider σ ε)
    (domain token keyAuth : GoString) (world : World σ ρ) :
    (wrapperProvider.Present { provider := p } domain token keyAuth world).2.trace =
        world.trace ++ [Call.Present (Spec.oneTrailingDotRemoved domain) token keyAuth]
      ∧ (wrapperProvider.CleanUp { provider := p } domain token keyAuth world).2.trace =
          world.trace ++ [Call.CleanUp (Spec.oneTrailingDotRemoved domain) token keyAuth]
      ∧ (wrapperProvider.CleanUp { provider := p } domain token keyAuth world).1 =
          (p.CleanUp (Spec.oneTrailingDotRemoved domain) token keyAuth world.state).1
      ∧ (wrapperProvider.CleanUp { provider := p } domain token keyAuth world).2.state =
          (p.CleanUp (Spec.oneTrailingDotRemoved domain) token keyAuth world.state).2
      ∧ ((wrapperProvider.CleanUp { provider := p } domain token keyAuth world).1 ≠ none ↔
          (p.CleanUp (Spec.oneTrailingDotRemoved domain) token keyAuth world.state).1 ≠ none)
      ∧ (∀ err : GoError ε,
          (p.CleanUp (Spec.oneTrailingDotRemoved domain) token keyAuth world.state).1 =
            some err →
          (wrapperProvider.CleanUp { provider := p } domain token keyAuth world).1 =
            some err) := by
  have hp : (wrapperProvider.Present { provider := p } domain token keyAuth world).2.trace =
      world.trace ++ [Call.Present (Spec.oneTrailingDotRemoved domain) token keyAuth] := by
    unfold wrapperProvider.Present Provider.callPresent
    simp only [TrimSuffix_dot_eq_spec]
  have hc : wrapperProvider.CleanUp { provider := p } domain token keyAuth world =
      ((p.CleanUp (Spec.oneTrailingDotRemoved domain) token keyAuth world.state).1,
        { state := (p.CleanUp (Spec.oneTrailingDotRemoved domain) token keyAuth world.state).2,
          trace :=
            world.trace ++
              [Call.CleanUp (Spec.oneTrailingDotRemoved domain) token keyAuth] }) := by
    unfold wrapperProvider.CleanUp Provider.callCleanUp
    simp only [TrimSuffix_dot_eq_spec]
  refine ⟨hp, ?_, ?_, ?_, ?_, ?_⟩
  · rw [hc]
  · rw [hc]
  · rw [hc]
  · rw [hc]
  · intro err he
    rw [hc]
    exact he

/-- Evaluation for C2: on the stub backend with no record, `CleanUp` of
"foo.bar." reaches the backend once, as ("foo.bar", "tok", "auth"), and the
backend's "record not found" error comes back as it is. -/
theorem CleanUp_not_found_passes_through :
    (wrapperProvider.CleanUp { provider := stubProvider } (str "foo.bar.") (str "tok")
        (str "auth") emptyWorld).2.trace =
        [Call.CleanUp (str "foo.bar") (str "tok") (str "auth")]
      ∧ (wrapperProvider.CleanUp { provider := stubProvider } (str "foo.bar.") (str "tok")
        (str "auth") emptyWorld).1 = some (errors.New (str "record not found")) :=
  ⟨(CleanUp_same_triple_passes_result stubProvider (str "foo.bar.") (str "tok") (str "auth")
      emptyWorld).2.1,
    (CleanUp_same_triple_passes_result stubProvider (str "foo.bar.") (str "tok") (str "auth")
      emptyWorld).2.2.1⟩

/-- Evaluation for C1 (the end-to-end scenario of the specification):
`Present("foo.bar.", "tok", "auth")` reaches the stub backend once, as
("foo.bar", "tok", "auth"), and returns `nil`. -/
theorem Present_foo_bar_scenario :
    wrapperProvider.Present { provider := stubProvider } (str "foo.bar.") (str "tok")
        (str "auth") emptyWorld =
      (none,
        { state := [str "foo.bar"],
          trace := [Call.Present (str "foo.bar") (str "tok") (str "auth")] }) :=
  (Present_delegates_once stubProvider (str "foo.bar.") (str "tok") (str "auth")
    emptyWorld).1

/-- Claim C3, as amended: normalization removes one trailing ".", no more.
Normalizing a domain is a no-op exactly when the domain has no trailing ".",
and normalizing twice equals normalizing once exactly when the domain
does not end with "..". -/
theorem normalize_twice_eq_once_iff (domain : GoString) :
    (strings.TrimSuffix domain (str ".") = domain ↔ ¬ (str "." <:+ domain))
      ∧ (strings.TrimSuffix (strings.TrimSuffix domain (str ".")) (str ".") =
          strings.TrimSuffix domain (str ".")
        ↔ ¬ (str ".." <:+ domain)) := by
  refine ⟨TrimSuffix_dot_eq_self_iff domain, ?_⟩
  rw [TrimSuffix_dot_eq_self_iff]
  rcases List.eq_nil_or_concat domain with rfl | ⟨l, a, rfl⟩
  · rw [TrimSuffix_dot_nil]
    have h1 : ¬ (str "." <:+ ([] : GoString)) := by decide
    have h2 : ¬ (str ".." <:+ ([] : GoString)) := by decide
    exact iff_of_true h1 h2
  · rw [List.concat_eq_append, TrimSuffix_dot_concat]
    by_cases h : a = 46
    · subst h
      rw [if_pos rfl, suffix_two_dots_concat_iff]
    · rw [if_neg h]
      have h1 : ¬ (str "." <:+ l ++ [a]) := by
        rw [str_dot]
        exact not_suffix_of_last_ne l [] a 46 h
      have h2 : ¬ (str ".." <:+ l ++ [a]) := by
        have e : str ".." = [46] ++ [46] := by decide
        rw [e]
        exact not_suffix_of_last_ne l [46] a 46 h
      exact iff_of_true h1 h2

/-- Evaluation for C3: "example.com." does not end with "..", and normalizing
it twice gives the same as normalizing it once, "example.com". -/
theorem normalize_example_com_scenario :
    strings.TrimSuffix (strings.TrimSuffix (str "example.com.") (str ".")) (str ".") =
        strings.TrimSuffix (str "example.com.") (str ".")
      ∧ strings.TrimSuffix (str "example.com.") (str ".") = str "example.com" :=
  ⟨(normalize_twice_eq_once_iff (str "example.com.")).2.2 (by decide), by decide⟩

/-- Counterexample to C3 as stated: for the domain "example.com..",
normalizing once gives "example.com." and normalizing twice gives
"example.com". -/
theorem normalize_twice_ne_once :
    strings.TrimSuffix (str "example.com..") (str ".") = str "example.com."
      ∧ strings.TrimSuffix (strings.TrimSuffix (str "example.com..") (str ".")) (str ".") =
          str "example.com"
      ∧ strings.TrimSuffix (strings.TrimSuffix (str "example.com..") (str ".")) (str ".") ≠
          strings.TrimSuffix (str "example.com..") (str ".") := by
  decide

/-- Claim C4: for every domain `d` that does not end with ".", normalization
leaves `d` unchanged and maps `d ++ "."` to `d`; so `Present(d ++ ".", token,
keyAuth)` and `Present(d, token, keyAuth)` are both exactly the one backend
call `Present(d, token, keyAuth)`: the backend receives the domain `d`, and
result, outside state and trace are those of that call. -/
theorem Present_trailing_dot_same_domain (p : Provider σ ε) (d token keyAuth : GoString)
    (world : World σ ρ) (h : ¬ (str "." <:+ d)) :
    strings.TrimSuffix d (str ".") = d
      ∧ strings.TrimSuffix (d ++ str ".") (str ".") = d
      ∧ wrapperProvider.Present { provider := p } (d ++ str ".") token keyAuth world =
          ((p.Present d token keyAuth world.state).1,
            { state := (p.Present d token keyAuth world.state).2,
              trace := world.trace ++ [Call.Present d token keyAuth] })
      ∧ wrapperProvider.Present { provider := p } d token keyAuth world =
          ((p.Present d token keyAuth world.state).1,
            { state := (p.Present d token keyAuth world.state).2,
              trace := world.trace ++ [Call.Present d token keyAuth] })
      ∧ (wrapperProvider.Present { provider := p } (d ++ str ".") token keyAuth world).2.trace =
          world.trace ++ [Call.Present d token keyAuth]
      ∧ (wrapperProvider.Present { provider := p } d token keyAuth world).2.trace =
          world.trace ++ [Call.Present d token keyAuth]
      ∧ wrapperProvider.Present { provider := p } (d ++ str ".") token keyAuth world =
          wrapperProvider.Present { provider := p } d token keyAuth world := by
  have h1 : strings.TrimSuffix d (str ".") = d := (TrimSuffix_dot_eq_self_iff d).2 h
  have h2 : strings.TrimSuffix (d ++ str ".") (str ".") = d := by
    have e := TrimSuffix_dot_concat d 46
    rw [if_pos rfl] at e
    rw [str_dot] at e ⊢
    exact e
  have r2 : wrapperProvider.Present { provider := p } (d ++ str ".") token keyAuth world =
      ((p.Present d token keyAuth world.state).1,
        { state := (p.Present d token keyAuth world.state).2,
          trace := world.trace ++ [Call.Present d token keyAuth] }) := by
    unfold wrapperProvider.Present Provider.callPresent
    simp only [h2]
  have r1 : wrapperProvider.Present { provider := p } d token keyAuth world =
      ((p.Present d token keyAuth world.state).1,
        { state := (p.Present d token keyAuth world.state).2,
          trace := world.trace ++ [Call.Present d token keyAuth] }) := by
    unfold wrapperProvider.Present Provider.callPresent
    simp only [h1]
  refine ⟨h1, h2, r2, r1, ?_, ?_, ?_⟩
  · rw [r2]
  · rw [r1]
  · rw [r1, r2]

/-- Witness for C4: "sub.example.com." and "sub.example.com" both reach the
stub backend as "sub.example.com": in both runs the stub ends up holding the
record "sub.example.com", returns `nil`, and was called once. -/
theorem Present_sub_example_com_witness :
    ¬ (str "." <:+ str "sub.example.com")
      ∧ (strings.TrimSuffix (str "sub.example.com") (str ".") = str "sub.example.com"
        ∧ strings.TrimSuffix (str "sub.example.com" ++ str ".") (str ".") =
            str "sub.example.com"
        ∧ wrapperProvider.Present { provider := stubProvider } (str "sub.example.com" ++ str ".")
              (str "tok") (str "auth") emptyWorld =
            (none,
              { state := [str "sub.example.com"],
                trace := [Call.Present (str "sub.example.com") (str "tok") (str "auth")] })
        ∧ wrapperProvider.Present { provider := stubProvider } (str "sub.example.com")
              (str "tok") (str "auth") emptyWorld =
            (none,
              { state := [str "sub.example.com"],
                trace := [Call.Present (str "sub.example.com") (str "tok") (str "auth")] })
        ∧ (wrapperProvider.Present { provider := stubProvider } (str "sub.example.com" ++ str ".")
              (str "tok") (str "auth") emptyWorld).2.trace =
            emptyWorld.trace ++ [Call.Present (str "sub.example.com") (str "tok") (str "auth")]
        ∧ (wrapperProvider.Present { provider := stubProvider } (str "sub.example.com")
              (str "tok") (str "auth") emptyWorld).2.trace =
            emptyWorld.trace ++ [Call.Present (str "sub.example.com") (str "tok") (str "auth")]
        ∧ wrapperProvider.Present { provider := stubProvider } (str "sub.example.com" ++ str ".")
              (str "tok") (str "auth") emptyWorld =
            wrapperProvider.Present { provider := stubProvider } (str "sub.example.com")
              (str "tok") (str "auth") emptyWorld) :=
  ⟨by decide,
    Present_trailing_dot_same_domain stubProvider (str "sub.example.com") (str "tok")
      (str "auth") emptyWorld (by decide)⟩

end

/-! ## Integer conversions -/

theorem wrapInt_64_of_range (x : Int) (h1 : -9223372036854775808 ≤ x)
    (h2 : x ≤ 9223372036854775807) : wrapInt 64 x = x := by
  unfold wrapInt
  norm_num
  omega

theorem wrapInt_32_of_range (x : Int) (h1 : -2147483648 ≤ x) (h2 : x ≤ 2147483647) :
    wrapInt 32 x = x := by
  unfold wrapInt
  norm_num
  omega

theorem wrapInt_64_range (x : Int) :
    -9223372036854775808 ≤ wrapInt 64 x ∧ wrapInt 64 x ≤ 9223372036854775807 := by
  unfold wrapInt
  norm_num
  omega

theorem seconds_of_range (n : Int) (h1 : -9223372036 ≤ n) (h2 : n ≤ 9223372036) :
    time.Duration.mul (time.toDuration n) time.Second = n * 1000000000 := by
  unfold time.Duration.mul time.toDuration time.Second int64
  rw [wrapInt_64_of_range n (by omega) (by omega)]
  exact wrapInt_64_of_range _ (by omega) (by omega)

theorem seconds_out_of_range (n : Int) (h : n < -9223372036 ∨ 9223372036 < n) :
    time.Duration.mul (time.toDuration n) time.Second ≠ n * 1000000000 := by
  unfold time.Duration.mul int64
  intro e
  have r := wrapInt_64_range (time.toDuration n * time.Second)
  rw [e] at r
  omega

/-! ## Timeout and NewChallenger -/

section
variable {σ ε ρ : Type}

/-- The shape of every run of `NewChallenger` on a non-nil config: the calls
made, the configuration handed to the constructor, and the result. -/
theorem NewChallenger_some (pkg : Hwc σ ε ρ) (config : ChallengerConfig)
    (world : World σ ρ) :
    ∃ c : hwc.Config ρ,
      c.AccessKeyID = config.AccessKeyId
      ∧ c.SecretAccessKey = config.SecretAccessKey
      ∧ c.Region = (if config.Region = str "" then str "cn-north-1" else config.Region)
      ∧ c.PropagationTimeout =
          (if config.DnsPropagationTimeout = 0 then
            (pkg.NewDefaultConfig world.state).1.PropagationTimeout
          else time.Duration.mul (time.toDuration config.DnsPropagationTimeout) time.Second)
      ∧ c.TTL =
          (if config.DnsTTL = 0 then (pkg.NewDefaultConfig world.state).1.TTL
          else int32 config.DnsTTL)
      ∧ c.rest = (pkg.NewDefaultConfig world.state).1.rest
      ∧ NewChallenger pkg (some config) world =
          ((match (pkg.NewDNSProviderConfig c (pkg.NewDefaultConfig world.state).2).1 with
            | Except.error err => (none, some err)
            | Except.ok provider => (some { provider := provider }, none)),
            { state := (pkg.NewDNSProviderConfig c (pkg.NewDefaultConfig world.state).2).2,
              trace :=
                world.trace ++ [Call.NewDefaultConfig, Call.NewDNSProviderConfig c] }) := by
  refine ⟨{ AccessKeyID := config.AccessKeyId
            SecretAccessKey := config.SecretAccessKey
            Region := if config.Region = str "" then str "cn-north-1" else config.Region
            PropagationTimeout :=
              if config.DnsPropagationTimeout = 0 then
                (pkg.NewDefaultConfig world.state).1.PropagationTimeout
              else time.Duration.mul (time.toDuration config.DnsPropagationTimeout) time.Second
            TTL :=
              if config.DnsTTL = 0 then (pkg.NewDefaultConfig world.state).1.TTL
              else int32 config.DnsTTL
            rest := (pkg.NewDefaultConfig world.state).1.rest },
    rfl, rfl, rfl, rfl, rfl, rfl, ?_⟩
  unfold NewChallenger Hwc.callNewDNSProviderConfig Hwc.callNewDefaultConfig
  by_cases h1 : config.DnsPropagationTimeout = 0 <;> by_cases h2 : config.DnsTTL = 0
  all_goals
    simp only [h1, h2, ne_eq, not_true_eq_false, not_false_eq_true, if_true, if_false,
      List.append_assoc, List.singleton_append]
    split <;> simp_all

end

section
variable {σ ε ρ : Type}

/-- Claim C9: `wrapperProvider.Timeout` returns the backend's (timeout,
interval) pair as it is, through one call of the backend's `Timeout`, whenever
the backend implements `challenge.ProviderTimeout`; for a backend that does
not, it returns the zero pair (0, 0) and calls nothing. -/
theorem Timeout_delegates_or_zero (p : Provider σ ε) (world : World σ ρ) :
    (∀ f : σ → (time.Duration × time.Duration) × σ, p.Timeout = some f →
        wrapperProvider.Timeout { provider := p } world =
          ((f world.state).1,
            { state := (f world.state).2, trace := world.trace ++ [Call.Timeout] }))
      ∧ (p.Timeout = none →
        wrapperProvider.Timeout { provider := p } world = ((0, 0), world)) := by
  constructor
  · intro f hf
    unfold wrapperProvider.Timeout Provider.callTimeout
    simp only [hf]
  · intro hn
    unfold wrapperProvider.Timeout
    simp only [hn]

/-- Evaluation for C9 on the two stub backends: with the capability the
stub's pair (120 s, 2 s) comes back in that order; without it, (0, 0). -/
theorem Timeout_stub_scenario :
    wrapperProvider.Timeout { provider := stubProvider } emptyWorld =
        ((120000000000, 2000000000), { state := [], trace := [Call.Timeout] })
      ∧ wrapperProvider.Timeout { provider := stubProviderNoTimeout } emptyWorld =
        ((0, 0), emptyWorld) :=
  ⟨(Timeout_delegates_or_zero stubProvider emptyWorld).1 _ rfl,
    (Timeout_delegates_or_zero stubProviderNoTimeout emptyWorld).2 rfl⟩

/-- Claim C5: `NewChallenger(nil)` returns a nil challenger and the non-nil
error "the configuration of the acme challenge provider is nil", whatever the
backend package is, and leaves the world as it was: no call of
`hwc.NewDefaultConfig` nor of `hwc.NewDNSProviderConfig` is made. -/
theorem NewChallenger_nil_fails (pkg : Hwc σ ε ρ) (world : World σ ρ) :
    NewChallenger pkg none world =
        ((none,
          some (errors.New (str "the configuration of the acme challenge provider is nil"))),
          world)
      ∧ (NewChallenger pkg none world).1.1.isNone = true
      ∧ (NewChallenger pkg none world).1.2 ≠ none
      ∧ (NewChallenger pkg none world).2.trace = world.trace
      ∧ (NewChallenger pkg none world).2.state = world.state := by
  refine ⟨rfl, rfl, ?_, rfl, rfl⟩
  intro h
  cases h

/-- Evaluation for C5 on the stub package: the nil config gives a nil
challenger and the error, and the trace stays empty. -/
theorem NewChallenger_nil_stub_scenario :
    NewChallenger stubHwc none emptyWorld =
      ((none,
        some (errors.New (str "the configuration of the acme challenge provider is nil"))),
        { state := [], trace := [] }) :=
  (NewChallenger_nil_fails stubHwc emptyWorld).1

/-- Claim C6: for every non-nil config, `NewChallenger` calls the backend
constructor once, on a configuration `c` whose region is "cn-north-1" when
`config.Region` is empty and exactly `config.Region` otherwise; the result,
the outside state and the trace of `NewChallenger` are those of that
constructor call on `c`. -/
theorem Region_handed_to_constructor (pkg : Hwc σ ε ρ) (config : ChallengerConfig)
    (world : World σ ρ) :
    ∃ c : hwc.Config ρ,
      NewChallenger pkg (some config) world =
          ((match (pkg.NewDNSProviderConfig c (pkg.NewDefaultConfig world.state).2).1 with
            | Except.error err => (none, some err)
            | Except.ok provider => (some { provider := provider }, none)),
            { state := (pkg.NewDNSProviderConfig c (pkg.NewDefaultConfig world.state).2).2,
              trace :=
                world.trace ++ [Call.NewDefaultConfig, Call.NewDNSProviderConfig c] })
      ∧ (config.Region = str "" → c.Region = str "cn-north-1")
      ∧ (config.Region ≠ str "" → c.Region = config.Region) := by
  obtain ⟨c, _, _, hr, _, _, _, hrun⟩ := NewChallenger_some pkg config world
  refine ⟨c, hrun, ?_, ?_⟩
  · intro he
    rw [hr, if_pos he]
  · intro hne
    rw [hr, if_neg hne]

/-- Evaluation for C6 on the stub packages: an empty region reaches the
constructor as "cn-north-1", a region of one blank reaches it as one blank;
the recording stub ends up holding exactly the configuration it was given. -/
theorem Region_stub_scenario :
    (∃ c : hwc.Config Unit,
        NewChallenger recordingHwc (some scenarioConfig) recordingWorld =
  ((match (recordingHwc.NewDNSProviderConfig c (recordingHwc.NewDefaultConfig recordingWorld.state).2).1 with
    | Except.error err => (none, some err)
    | Except.ok provider => (some { provider := provider }, none)),
    { state := (recordingHwc.NewDNSProviderConfig c (recordingHwc.NewDefaultConfig recordingWorld.state).2).2,
      trace :=
        recordingWorld.trace ++ [Call.NewDefaultConfig, Call.NewDNSProviderConfig c] })
        ∧ c.Region = str "cn-north-1")
      ∧ (NewChallenger recordingHwc (some scenarioConfig) recordingWorld).2 =
        { state :=
            [{ AccessKeyID := str "AK", SecretAccessKey := str "SK", Region := str "cn-north-1",
               PropagationTimeout := 60000000000, TTL := 300, rest := () }],
          trace :=
            [Call.NewDefaultConfig,
              Call.NewDNSProviderConfig
                { AccessKeyID := str "AK", SecretAccessKey := str "SK",
                  Region := str "cn-north-1",
                  PropagationTimeout := 60000000000, TTL := 300, rest := () }] }
      ∧ (NewChallenger recordingHwc (some blankRegionConfig) recordingWorld).2 =
        { state :=
            [{ AccessKeyID := str "AK", SecretAccessKey := str "SK", Region := str " ",
               PropagationTimeout := 60000000000, TTL := 300, rest := () }],
          trace :=
            [Call.NewDefaultConfig,
              Call.NewDNSProviderConfig
                { AccessKeyID := str "AK", SecretAccessKey := str "SK", Region := str " ",
                  PropagationTimeout := 60000000000, TTL := 300, rest := () }] }
      ∧ (NewChallenger stubHwc (some scenarioConfig) emptyWorld).1 =
        (some { provider := stubProvider }, none)
      ∧ (NewChallenger stubHwc (some scenarioConfig) emptyWorld).2.trace =
        [Call.NewDefaultConfig,
          Call.NewDNSProviderConfig
            { AccessKeyID := str "AK", SecretAccessKey := str "SK", Region := str "cn-north-1",
              PropagationTimeout := 60000000000, TTL := 300, rest := () }]
      ∧ (NewChallenger stubHwc (some blankRegionConfig) emptyWorld).2.trace =
        [Call.NewDefaultConfig,
          Call.NewDNSProviderConfig
            { AccessKeyID := str "AK", SecretAccessKey := str "SK", Region := str " ",
              PropagationTimeout := 60000000000, TTL := 300, rest := () }] := by
  refine ⟨?_, by decide, by decide, rfl, by decide, by decide⟩
  obtain ⟨c, hrun, he, _⟩ :=
    Region_handed_to_constructor recordingHwc scenarioConfig recordingWorld
  exact ⟨c, hrun, he rfl⟩

end

section
variable {σ ε ρ : Type}

/-- Claim C7, as amended: for every non-nil config whose propagation timeout
`n` satisfies -9223372036 ≤ n ≤ 9223372036, `NewChallenger` calls the backend
constructor once, on a configuration `c` that carries the backend's own
default propagation timeout when `n = 0`, and exactly `n * 1000000000`
nanoseconds when `n ≠ 0`; the result, the outside state and the trace of
`NewChallenger` are those of that constructor call on `c`. -/
theorem PropagationTimeout_handed_to_constructor (pkg : Hwc σ ε ρ)
    (config : ChallengerConfig) (world : World σ ρ)
    (hlo : -9223372036 ≤ config.DnsPropagationTimeout)
    (hhi : config.DnsPropagationTimeout ≤ 9223372036) :
    ∃ c : hwc.Config ρ,
      NewChallenger pkg (some config) world =
          ((match (pkg.NewDNSProviderConfig c (pkg.NewDefaultConfig world.state).2).1 with
            | Except.error err => (none, some err)
            | Except.ok provider => (some { provider := provider }, none)),
            { state := (pkg.NewDNSProviderConfig c (pkg.NewDefaultConfig world.state).2).2,
              trace :=
                world.trace ++ [Call.NewDefaultConfig, Call.NewDNSProviderConfig c] })
      ∧ (config.DnsPropagationTimeout = 0 →
          c.PropagationTimeout = (pkg.NewDefaultConfig world.state).1.PropagationTimeout)
      ∧ (config.DnsPropagationTimeout ≠ 0 →
          c.PropagationTimeout = config.DnsPropagationTimeout * 1000000000) := by
  obtain ⟨c, _, _, _, ht, _, _, hrun⟩ := NewChallenger_some pkg config world
  refine ⟨c, hrun, ?_, ?_⟩
  · intro he
    rw [ht, if_pos he]
  · intro hne
    rw [ht, if_neg hne]
    exact seconds_of_range _ hlo hhi

/-- Witness for C7: a propagation timeout of 120 s reaches the constructor of
the recording stub as 120000000000 ns, and the stub ends up holding exactly
that configuration. -/
theorem PropagationTimeout_120_witness :
    (-9223372036 ≤ fullConfig.DnsPropagationTimeout
        ∧ fullConfig.DnsPropagationTimeout ≤ 9223372036)
      ∧ (∃ c : hwc.Config Unit,
        NewChallenger recordingHwc (some fullConfig) recordingWorld =
  ((match (recordingHwc.NewDNSProviderConfig c (recordingHwc.NewDefaultConfig recordingWorld.state).2).1 with
    | Except.error err => (none, some err)
    | Except.ok provider => (some { provider := provider }, none)),
    { state := (recordingHwc.NewDNSProviderConfig c (recordingHwc.NewDefaultConfig recordingWorld.state).2).2,
      trace :=
        recordingWorld.trace ++ [Call.NewDefaultConfig, Call.NewDNSProviderConfig c] })
        ∧ (fullConfig.DnsPropagationTimeout = 0 →
            c.PropagationTimeout =
              (recordingHwc.NewDefaultConfig recordingWorld.state).1.PropagationTimeout)
        ∧ (fullConfig.DnsPropagationTimeout ≠ 0 →
            c.PropagationTimeout = fullConfig.DnsPropagationTimeout * 1000000000))
      ∧ (NewChallenger recordingHwc (some fullConfig) recordingWorld).2 =
        { state :=
            [{ AccessKeyID := str "AK", SecretAccessKey := str "SK", Region := str "cn-east-3",
               PropagationTimeout := 120000000000, TTL := 600, rest := () }],
          trace :=
            [Call.NewDefaultConfig,
              Call.NewDNSProviderConfig
                { AccessKeyID := str "AK", SecretAccessKey := str "SK",
                  Region := str "cn-east-3",
                  PropagationTimeout := 120000000000, TTL := 600, rest := () }] } :=
  ⟨by decide,
    PropagationTimeout_handed_to_constructor recordingHwc fullConfig recordingWorld
      (by decide) (by decide),
    by decide⟩

/-- Counterexample to C7 as stated: the config with propagation timeout
9223372037 s is a well-formed config with a nonzero timeout; the constructor
is called, succeeds, and receives -9223372036709551616 ns, not
9223372037000000000 ns (the recording stub ends up holding that value). -/
theorem PropagationTimeout_overflow :
    longTimeoutConfig.WellFormed
      ∧ longTimeoutConfig.DnsPropagationTimeout ≠ 0
      ∧ (NewChallenger stubHwc (some longTimeoutConfig) emptyWorld).2.trace =
        [Call.NewDefaultConfig,
          Call.NewDNSProviderConfig
            { AccessKeyID := str "AK", SecretAccessKey := str "SK", Region := str "cn-north-1",
              PropagationTimeout := -9223372036709551616, TTL := 300, rest := () }]
      ∧ (-9223372036709551616 : Int) ≠ longTimeoutConfig.DnsPropagationTimeout * 1000000000
      ∧ (NewChallenger stubHwc (some longTimeoutConfig) emptyWorld).1 =
        (some { provider := stubProvider }, none)
      ∧ (NewChallenger recordingHwc (some longTimeoutConfig) recordingWorld).2 =
        { state :=
            [{ AccessKeyID := str "AK", SecretAccessKey := str "SK", Region := str "cn-north-1",
               PropagationTimeout := -9223372036709551616, TTL := 300, rest := () }],
          trace :=
            [Call.NewDefaultConfig,
              Call.NewDNSProviderConfig
                { AccessKeyID := str "AK", SecretAccessKey := str "SK",
                  Region := str "cn-north-1",
                  PropagationTimeout := -9223372036709551616, TTL := 300, rest := () }] } :=
  ⟨by decide, by decide, by decide, by decide, rfl, by decide⟩

/-- The range of C7 is the largest possible: for a nonzero propagation timeout
outside [-9223372036, 9223372036] the value handed to the constructor is not
`n * 1000000000`. -/
theorem PropagationTimeout_range_is_tight (pkg : Hwc σ ε ρ) (config : ChallengerConfig)
    (world : World σ ρ)
    (h : config.DnsPropagationTimeout < -9223372036 ∨ 9223372036 < config.DnsPropagationTimeout) :
    ∃ c : hwc.Config ρ,
      NewChallenger pkg (some config) world =
          ((match (pkg.NewDNSProviderConfig c (pkg.NewDefaultConfig world.state).2).1 with
            | Except.error err => (none, some err)
            | Except.ok provider => (some { provider := provider }, none)),
            { state := (pkg.NewDNSProviderConfig c (pkg.NewDefaultConfig world.state).2).2,
              trace :=
                world.trace ++ [Call.NewDefaultConfig, Call.NewDNSProviderConfig c] })
      ∧ c.PropagationTimeout ≠ config.DnsPropagationTimeout * 1000000000 := by
  obtain ⟨c, _, _, _, ht, _, _, hrun⟩ := NewChallenger_some pkg config world
  refine ⟨c, hrun, ?_⟩
  have hne : config.DnsPropagationTimeout ≠ 0 := by omega
  rw [ht, if_neg hne]
  exact seconds_out_of_range _ h

/-- Claim C8, as amended: for every non-nil config whose `DnsTTL` lies in the
`int32` range [-2147483648, 2147483647], `NewChallenger` calls the backend
constructor once, on a configuration `c` that carries the backend's own
default TTL when `DnsTTL = 0`, and exactly `DnsTTL`, which is then not zero,
when `DnsTTL ≠ 0`; the result, the outside state and the trace of
`NewChallenger` are those of that constructor call on `c`. -/
theorem TTL_handed_to_constructor (pkg : Hwc σ ε ρ) (config : ChallengerConfig)
    (world : World σ ρ) (hlo : -2147483648 ≤ config.DnsTTL)
    (hhi : config.DnsTTL ≤ 2147483647) :
    ∃ c : hwc.Config ρ,
      NewChallenger pkg (some config) world =
          ((match (pkg.NewDNSProviderConfig c (pkg.NewDefaultConfig world.state).2).1 with
            | Except.error err => (none, some err)
            | Except.ok provider => (some { provider := provider }, none)),
            { state := (pkg.NewDNSProviderConfig c (pkg.NewDefaultConfig world.state).2).2,
              trace :=
                world.trace ++ [Call.NewDefaultConfig, Call.NewDNSProviderConfig c] })
      ∧ (config.DnsTTL = 0 → c.TTL = (pkg.NewDefaultConfig world.state).1.TTL)
      ∧ (config.DnsTTL ≠ 0 → c.TTL = config.DnsTTL ∧ c.TTL ≠ 0) := by
  obtain ⟨c, _, _, _, _, ht, _, hrun⟩ := NewChallenger_some pkg config world
  refine ⟨c, hrun, ?_, ?_⟩
  · intro he
    rw [ht, if_pos he]
  · intro hne
    have e : c.TTL = config.DnsTTL := by
      rw [ht, if_neg hne]
      exact wrapInt_32_of_range _ hlo hhi
    exact ⟨e, by rw [e]; exact hne⟩

/-- Witness for C8: a TTL of 600 reaches the constructor of the recording stub
as 600, and the stub ends up holding exactly that configuration. -/
theorem TTL_600_witness :
    (-2147483648 ≤ fullConfig.DnsTTL ∧ fullConfig.DnsTTL ≤ 2147483647)
      ∧ (∃ c : hwc.Config Unit,
        NewChallenger recordingHwc (some fullConfig) recordingWorld =
  ((match (recordingHwc.NewDNSProviderConfig c (recordingHwc.NewDefaultConfig recordingWorld.state).2).1 with
    | Except.error err => (none, some err)
    | Except.ok provider => (some { provider := provider }, none)),
    { state := (recordingHwc.NewDNSProviderConfig c (recordingHwc.NewDefaultConfig recordingWorld.state).2).2,
      trace :=
        recordingWorld.trace ++ [Call.NewDefaultConfig, Call.NewDNSProviderConfig c] })
        ∧ (fullConfig.DnsTTL = 0 →
            c.TTL = (recordingHwc.NewDefaultConfig recordingWorld.state).1.TTL)
        ∧ (fullConfig.DnsTTL ≠ 0 → c.TTL = fullConfig.DnsTTL ∧ c.TTL ≠ 0))
      ∧ (NewChallenger recordingHwc (some fullConfig) recordingWorld).2.state =
        [{ AccessKeyID := str "AK", SecretAccessKey := str "SK", Region := str "cn-east-3",
           PropagationTimeout := 120000000000, TTL := 600, rest := () }] :=
  ⟨by decide,
    TTL_handed_to_constructor recordingHwc fullConfig recordingWorld (by decide) (by decide),
    by decide⟩

/-- Counterexample to C8 as stated: the config with `DnsTTL` 4294967296 is a
well-formed config with a nonzero TTL; the constructor is called, succeeds,
and receives the TTL 0, in place of the backend default 300 and of
4294967296 (the recording stub ends up holding that value). -/
theorem TTL_truncated_to_zero :
    largeTTLConfig.WellFormed
      ∧ largeTTLConfig.DnsTTL ≠ 0
      ∧ (stubHwc.NewDefaultConfig emptyWorld.state).1.TTL = 300
      ∧ (NewChallenger stubHwc (some largeTTLConfig) emptyWorld).2.trace =
        [Call.NewDefaultConfig,
          Call.NewDNSProviderConfig
            { AccessKeyID := str "AK", SecretAccessKey := str "SK", Region := str "cn-north-1",
              PropagationTimeout := 60000000000, TTL := 0, rest := () }]
      ∧ (0 : Int) ≠ largeTTLConfig.DnsTTL
      ∧ (NewChallenger stubHwc (some largeTTLConfig) emptyWorld).1 =
        (some { provider := stubProvider }, none)
      ∧ (NewChallenger recordingHwc (some largeTTLConfig) recordingWorld).2 =
        { state :=
            [{ AccessKeyID := str "AK", SecretAccessKey := str "SK", Region := str "cn-north-1",
               PropagationTimeout := 60000000000, TTL := 0, rest := () }],
          trace :=
            [Call.NewDefaultConfig,
              Call.NewDNSProviderConfig
                { AccessKeyID := str "AK", SecretAccessKey := str "SK",
                  Region := str "cn-north-1",
                  PropagationTimeout := 60000000000, TTL := 0, rest := () }] } :=
  ⟨by decide, by decide, by decide, by decide, by decide, rfl, by decide⟩

/-- Claim C10: for every non-nil config, `NewChallenger` calls the backend
constructor once, on a configuration that carries the config's accessKeyId and
secretAccessKey unchanged; when the constructor returns an error,
`NewChallenger` returns a nil challenger and that same error value; when it
returns a backend, `NewChallenger` returns a challenger wrapping exactly that
backend and a nil error; so `NewChallenger` fails if and only if the
constructor fails. -/
theorem NewChallenger_fails_iff_constructor_fails (pkg : Hwc σ ε ρ)
    (config : ChallengerConfig) (world : World σ ρ) :
    ∃ c : hwc.Config ρ,
      c.AccessKeyID = config.AccessKeyId
      ∧ c.SecretAccessKey = config.SecretAccessKey
      ∧ (NewChallenger pkg (some config) world).2.trace =
          world.trace ++ [Call.NewDefaultConfig, Call.NewDNSProviderConfig c]
      ∧ (∀ err : GoError ε,
          (pkg.NewDNSProviderConfig c (pkg.NewDefaultConfig world.state).2).1 =
            Except.error err →
          (NewChallenger pkg (some config) world).1 = (none, some err))
      ∧ (∀ provider : Provider σ ε,
          (pkg.NewDNSProviderConfig c (pkg.NewDefaultConfig world.state).2).1 =
            Except.ok provider →
          (NewChallenger pkg (some config) world).1 = (some { provider := provider }, none))
      ∧ ((NewChallenger pkg (some config) world).1.2 ≠ none ↔
          ∃ err : GoError ε,
            (pkg.NewDNSProviderConfig c (pkg.NewDefaultConfig world.state).2).1 =
              Except.error err) := by
  obtain ⟨c, ha, hs, _, _, _, _, hrun⟩ := NewChallenger_some pkg config world
  refine ⟨c, ha, hs, by rw [hrun], ?_, ?_, ?_⟩
  · intro err he
    rw [hrun]
    simp only [he]
  · intro provider he
    rw [hrun]
    simp only [he]
  · rw [hrun]
    cases hc : (pkg.NewDNSProviderConfig c (pkg.NewDefaultConfig world.state).2).1 with
    | error err => simp
    | ok provider => simp

/-- Evaluation for C10 on the stub package: with credentials "AK"/"SK" the
constructor is called once with them and succeeds, and the challenger wraps
the stub backend, with a nil error; without credentials the constructor's
error comes back as it is, with a nil challenger. -/
theorem NewChallenger_stub_scenario :
    (∃ c : hwc.Config Unit,
        c.AccessKeyID = str "AK" ∧ c.SecretAccessKey = str "SK"
        ∧ (NewChallenger stubHwc (some scenarioConfig) emptyWorld).2.trace =
            emptyWorld.trace ++ [Call.NewDefaultConfig, Call.NewDNSProviderConfig c])
      ∧ (NewChallenger stubHwc (some scenarioConfig) emptyWorld).1 =
        (some { provider := stubProvider }, none)
      ∧ (NewChallenger stubHwc (some noCredentialsConfig) emptyWorld).1 =
        (none, some (errors.New (str "huaweicloud: credentials missing"))) := by
  refine ⟨?_, rfl, rfl⟩
  obtain ⟨c, ha, hs, ht, _⟩ :=
    NewChallenger_fails_iff_constructor_fails stubHwc scenarioConfig emptyWorld
  exact ⟨c, ha, hs, ht⟩

end

end Huaweicloud
